import Mathlib

/-!
Shallow embedding of `src/https-proxy-server.js`: a hostname-routed reverse
proxy with a file-backed routing table, a sequential port-probing discovery
engine, and an admin API.  Pure functions below mirror the source functions
`loadConfig`, `saveConfig`, `addIssuer`, `handleRequest`, `handleAdminRequest`
and `discoverIssuer`; file-system effects are made explicit by threading an
`FS` state, and network probe outcomes are an explicit parameter.
-/

namespace CredentialProxy

/-- A routing-table entry: `config[hostname] = { target, name }` in the source. -/
structure Route where
  target : String
  name : String
deriving DecidableEq

/-- The routing table: a JS object mapping hostnames to routes.  Modeled as an
association list in key-insertion order (JS objects preserve insertion order
and hold at most one value per key). -/
abbrev Table := List (String × Route)

/-- JS object assignment `config[hostname] = v`: overwrite the existing entry
in place, or append a new one. -/
def setKey : Table → String → Route → Table
  | [], k, v => [(k, v)]
  | (k', v') :: rest, k, v =>
    if k' = k then (k, v) :: rest else (k', v') :: setKey rest k v

/-- The source constant DEFAULT_ISSUERS (lines 12-25). -/
def DEFAULT_ISSUERS : Table :=
  [ ("fido.moi.gov.tw", ⟨"https://localhost:5000", "內政部自然人憑證"⟩),
    ("land.moi.gov.tw", ⟨"https://localhost:5001", "內政部房產憑證"⟩),
    ("zuvi.io", ⟨"https://localhost:5002", "租房 Dapp"⟩) ]

/-- Contents of the durable storage file `issuers-config.json`.
`serialized t` stands for the exact text `JSON.stringify(t, null, 2)`, which
`JSON.parse` maps back to `t` (the stringify/parse pair is deterministic and
lossless on string-to-record maps); `unparsable` is any text `JSON.parse`
rejects; `absent` means the file does not exist. -/
inductive FileContent where
  | absent
  | unparsable
  | serialized (t : Table)
deriving DecidableEq

/-- File-system state threaded through the embedded functions: the config
file's content plus whether synchronous writes succeed (`writeOk = false`
models `fs.writeFileSync` throwing an I/O error). -/
structure FS where
  file : FileContent
  writeOk : Bool
deriving DecidableEq

/-- Errors thrown by the embedded JS primitives. -/
inductive JsError where
  | typeError
  | parseError
  | ioError
deriving DecidableEq

/-- Existence test on the storage file, i.e. existsSync(CONFIG_PATH). -/
def existsSync (fs : FS) : Bool :=
  match fs.file with
  | .absent => false
  | _ => true

/-- Read and parse the storage file (readFileSync then JSON.parse): throws on a missing
file or on malformed JSON. -/
def readConfigFile (fs : FS) : Except JsError Table :=
  match fs.file with
  | .serialized t => .ok t
  | .unparsable => .error .parseError
  | .absent => .error .ioError

/-- Serialize and write the table to the storage file (writeFileSync of the
JSON.stringify text): throws when
the disk is not writable. -/
def writeConfigFile (t : Table) (fs : FS) : Except JsError FS :=
  if fs.writeOk then .ok { fs with file := .serialized t } else .error .ioError

/-- Source function loadConfig (lines 33-53): return the parsed file if it exists and
parses; otherwise (missing file, or the read/parse threw and was caught) write
the default table — swallowing any write error — and return the default. -/
def loadConfig (fs : FS) : Table × FS :=
  match (if existsSync fs then (readConfigFile fs).map some else .ok none) with
  | .ok (some t) => (t, fs)
  | .ok none =>
    match writeConfigFile DEFAULT_ISSUERS fs with
    | .ok fs' => (DEFAULT_ISSUERS, fs')
    | .error _ => (DEFAULT_ISSUERS, fs)
  | .error _ =>
    match writeConfigFile DEFAULT_ISSUERS fs with
    | .ok fs' => (DEFAULT_ISSUERS, fs')
    | .error _ => (DEFAULT_ISSUERS, fs)

/-- Source function saveConfig (lines 56-65): write the table, returning `true` on
success and `false` when the write threw (the error is caught). -/
def saveConfig (t : Table) (fs : FS) : Bool × FS :=
  match writeConfigFile t fs with
  | .ok fs' => (true, fs')
  | .error _ => (false, fs)

/-- Source function addIssuer (lines 68-72): load the current table, set the entry,
persist. -/
def addIssuer (hostname target name : String) (fs : FS) : Bool × FS :=
  saveConfig (setKey (loadConfig fs).1 hostname ⟨target, name⟩) (loadConfig fs).2

/-- Result of `JSON.parse` + destructuring on an admin request body:
`malformed` when `JSON.parse` throws, otherwise the three destructured fields
(`none` models a field that is absent, i.e. `undefined`). -/
inductive AdminBody where
  | malformed
  | fields (hostname target name : Option String)
deriving DecidableEq

/-- An inbound HTTP request as `handleRequest` sees it.  `host` is
`req.headers.host` (absent when the client sent no Host header); `body` is the
request body, carried opaquely except on the admin add path, where it stands
for the `JSON.parse` outcome of the body text. -/
structure Request where
  host : Option String
  url : String
  method : String
  body : AdminBody
deriving DecidableEq

/-- Responses produced by `handleAdminRequest` (source lines 122-288). -/
inductive AdminResponse where
  | list (t : Table)
  | addSuccess
  | missingParams
  | malformedBody
  | persistFailed
  | adminPage
  | adminNotFound
deriving DecidableEq

/-- The HTTP status code each admin response is written with (`res.writeHead`
calls in the source; 200 when no explicit `writeHead` precedes `res.end`). -/
def adminStatus : AdminResponse → Nat
  | .list _ => 200
  | .addSuccess => 200
  | .missingParams => 400
  | .malformedBody => 400
  | .persistFailed => 500
  | .adminPage => 200
  | .adminNotFound => 404

/-- Observable outcome of dispatching one request.  `forwarded target req` is
`proxy.web(req, res, { target })` — the original request object, method and
body included, handed to the proxy transport; `respond404` is a 404 JSON
response with `error`, `message` and `admin_url` fields. -/
inductive Outcome where
  | forwarded (target : String) (req : Request)
  | respond404 (error message admin_url : String)
  | admin (resp : AdminResponse)
deriving DecidableEq

/-- JS truthiness test used by `!hostname || !target` and `name || hostname`
on destructured string fields: `undefined` and the empty string are falsy. -/
def jsFalsy : Option String → Bool
  | none => true
  | some s => s == ""

/-- JS `String.prototype.startsWith`, i.e. a character-prefix test. -/
def urlStartsWith (url pre : String) : Bool :=
  pre.toList.isPrefixOf url.toList

/-- Hostname extraction of source line 91, host.split on the colon taking the
first segment: the first
split-segment, i.e. the longest prefix of `host` containing no `':'`. -/
def extractHostname (host : String) : String :=
  String.mk (host.toList.takeWhile (fun c => c != ':'))

/-- Source function handleAdminRequest (lines 122-288), with the HTML page body
abstracted to the `adminPage` constructor. -/
def handleAdminRequest (req : Request) (fs : FS) : AdminResponse × FS :=
  if req.url = "/proxy-admin/list" ∧ req.method = "GET" then
    ((.list (loadConfig fs).1 : AdminResponse), (loadConfig fs).2)
  else if req.url = "/proxy-admin/add" ∧ req.method = "POST" then
    match req.body with
    | .malformed => (.malformedBody, fs)
    | .fields hostname target name =>
      if jsFalsy hostname || jsFalsy target then
        (.missingParams, fs)
      else
        let h := hostname.getD ("")
        let n := if jsFalsy name then h else name.getD ("")
        let r := addIssuer h (target.getD ("")) n fs
        if r.1 then (.addSuccess, r.2) else (.persistFailed, r.2)
  else if req.url = "/proxy-admin" ∧ req.method = "GET" then
    (.adminPage, fs)
  else
    (.adminNotFound, fs)

/-- The candidate port list of `discoverIssuer` (source line 295). -/
def DISCOVERY_PORTS : List Nat :=
  [5000, 5001, 5002, 5003, 5004, 5005, 8080, 8081, 8082, 8000, 8001]

/-- The sequential probe loop of `discoverIssuer` (source lines 298-342).
`outcome p = true` means the GET to
`https://localhost:p/.well-known/openid-credential-issuer` returned status
200 within the 1-second timeout; `false` covers any error, non-200 status or
timeout.  Returns the list of ports actually probed, in order, and on success
the winning port together with the file-system state after the `addIssuer`
side effect. -/
def probeLoop (hostname : String) (outcome : Nat → Bool) :
    List Nat → FS → List Nat × Option (Nat × FS)
  | [], _ => ([], none)
  | p :: rest, fs =>
    if outcome p then
      ([p], some (p, (addIssuer hostname ("https://localhost:" ++ toString p)
        ("自動發現的發行者 (" ++ hostname ++ ")") fs).2))
    else
      let r := probeLoop hostname outcome rest fs
      (p :: r.1, r.2)

/-- Source function discoverIssuer (lines 291-351), generalized over the candidate
port list the loop iterates: on the first 200 probe, register the route and
forward the original request to the found target; if every candidate fails,
respond 404 and leave the file system untouched. -/
def discoverIssuerWith (ports : List Nat) (hostname : String) (req : Request)
    (outcome : Nat → Bool) (fs : FS) : Outcome × FS :=
  match probeLoop hostname outcome ports fs with
  | (_, some (p, fs')) => (.forwarded ("https://localhost:" ++ toString p) req, fs')
  | (_, none) =>
    ((.respond404 ("未找到發行者")
        ("無法自動發現 " ++ hostname ++ " 的服務。請確保服務運行並在代理管理頁面添加此發行者。")
        "https://localhost:8080/proxy-admin" : Outcome), fs)

/-- The source discoverIssuer proper: the loop over the source's fixed port list. -/
def discoverIssuer (hostname : String) (req : Request) (outcome : Nat → Bool)
    (fs : FS) : Outcome × FS :=
  discoverIssuerWith DISCOVERY_PORTS hostname req outcome fs

/-- The ordered list of ports a discovery attempt actually probes. -/
def discoveryTrace (ports : List Nat) (hostname : String) (outcome : Nat → Bool)
    (fs : FS) : List Nat :=
  (probeLoop hostname outcome ports fs).1

/-- Source function handleRequest (lines 90-119).  Line 91 dereferences
`req.headers.host` unconditionally, so a missing Host header throws a
`TypeError` before any response is produced. -/
def handleRequest (req : Request) (outcome : Nat → Bool) (fs : FS) :
    Except JsError (Outcome × FS) :=
  match req.host with
  | none => .error .typeError
  | some host =>
    let hostname := extractHostname host
    if hostname = "localhost" ∧ urlStartsWith req.url ("/proxy-admin") = true then
      ((.ok ((.admin (handleAdminRequest req (loadConfig fs).2).1 : Outcome),
        (handleAdminRequest req (loadConfig fs).2).2)) : Except JsError (Outcome × FS))
    else
      match (loadConfig fs).1.lookup hostname with
      | some route => .ok (.forwarded route.target req, (loadConfig fs).2)
      | none =>
        if req.url = "/.well-known/openid-credential-issuer" then
          .ok (discoverIssuer hostname req outcome (loadConfig fs).2)
        else
          .ok ((.respond404 ("未配置的發行者")
            ("找不到 " ++ hostname ++ " 的配置，請在代理管理頁面添加此發行者。")
            "https://localhost:8080/proxy-admin" : Outcome), (loadConfig fs).2)

/-- Individual file-system calls, for reasoning about the write discipline of
the persistence layer. -/
inductive FsOp where
  | writeFile (path : String) (content : Table)
  | rename (src dst : String)
deriving DecidableEq

/-- The storage path (`CONFIG_PATH`, resolved relative to the source
directory). -/
def configPath : String := "issuers-config.json"

/-- The exact sequence of file-system calls `saveConfig` issues (source line
58): a single direct `writeFileSync` of the whole serialization to the
storage path. -/
def saveConfigOps (t : Table) : List FsOp :=
  [.writeFile configPath t]

/-- A write-to-temp-then-rename discipline: some write goes to a temporary
path distinct from the storage path, which is then renamed onto the storage
path. -/
def usesTempThenRename (ops : List FsOp) : Prop :=
  ∃ tmp c, FsOp.writeFile tmp c ∈ ops ∧ FsOp.rename tmp configPath ∈ ops ∧
    tmp ≠ configPath

/-- Storage-file states observable if the process may crash before, during or
after a single direct unbuffered overwrite of the storage path: the pre-write
content, a half-written prefix of the new text (malformed JSON, `unparsable`),
or the complete new content. -/
def directWriteCrashStates (pre : FileContent) (t : Table) : List FileContent :=
  [pre, .unparsable, .serialized t]

/-! ### Helper lemmas -/

theorem loadConfig_serialized {s : FS} {t : Table} (h : s.file = .serialized t) :
    loadConfig s = (t, s) := by
  obtain ⟨file, wk⟩ := s
  simp only [FS.file] at h
  subst h
  simp [loadConfig, existsSync, readConfigFile, Except.map]

theorem loadConfig_absent {s : FS} (h : s.file = .absent) :
    loadConfig s =
      (DEFAULT_ISSUERS,
        if s.writeOk then { s with file := .serialized DEFAULT_ISSUERS } else s) := by
  obtain ⟨file, wk⟩ := s
  simp only [FS.file] at h
  subst h
  cases wk <;> simp [loadConfig, existsSync, readConfigFile, writeConfigFile, Except.map]

theorem loadConfig_unparsable {s : FS} (h : s.file = .unparsable) :
    loadConfig s =
      (DEFAULT_ISSUERS,
        if s.writeOk then { s with file := .serialized DEFAULT_ISSUERS } else s) := by
  obtain ⟨file, wk⟩ := s
  simp only [FS.file] at h
  subst h
  cases wk <;> simp [loadConfig, existsSync, readConfigFile, writeConfigFile, Except.map]

theorem loadConfig_writeOk (fs : FS) : (loadConfig fs).2.writeOk = fs.writeOk := by
  obtain ⟨file, wk⟩ := fs
  cases file <;> cases wk <;>
    simp [loadConfig, existsSync, readConfigFile, writeConfigFile, Except.map]

theorem loadConfig_stable (fs : FS) :
    loadConfig (loadConfig fs).2 = ((loadConfig fs).1, (loadConfig fs).2) := by
  obtain ⟨file, wk⟩ := fs
  cases file <;> cases wk <;>
    simp [loadConfig, existsSync, readConfigFile, writeConfigFile, Except.map]

theorem saveConfig_writeOk_true {s : FS} (h : s.writeOk = true) (t : Table) :
    saveConfig t s = (true, ⟨.serialized t, true⟩) := by
  obtain ⟨file, wk⟩ := s
  simp only [FS.writeOk] at h
  subst h
  simp [saveConfig, writeConfigFile]

theorem saveConfig_writeOk_false {s : FS} (h : s.writeOk = false) (t : Table) :
    saveConfig t s = (false, s) := by
  simp [saveConfig, writeConfigFile, h]

theorem addIssuer_writeOk_true {s : FS} (h : s.writeOk = true)
    (hostname target name : String) :
    addIssuer hostname target name s =
      (true, ⟨.serialized (setKey (loadConfig s).1 hostname ⟨target, name⟩), true⟩) := by
  have h2 : (loadConfig s).2.writeOk = true := by rw [loadConfig_writeOk]; exact h
  rw [addIssuer, saveConfig_writeOk_true h2]

theorem addIssuer_writeOk_false {s : FS} (h : s.writeOk = false)
    (hostname target name : String) :
    addIssuer hostname target name s = (false, s) := by
  have h2 : (loadConfig s).2.writeOk = false := by rw [loadConfig_writeOk]; exact h
  rw [addIssuer, saveConfig_writeOk_false h2]
  obtain ⟨file, wk⟩ := s
  simp only [FS.writeOk] at h
  subst h
  cases file <;>
    simp [loadConfig, existsSync, readConfigFile, writeConfigFile, Except.map]

theorem loadConfig_mk_serialized (t : Table) (b : Bool) :
    loadConfig ⟨.serialized t, b⟩ = (t, ⟨.serialized t, b⟩) :=
  loadConfig_serialized rfl

theorem lookup_setKey (T : Table) (k : String) (v : Route) :
    (setKey T k v).lookup k = some v := by
  induction T with
  | nil => simp [setKey]
  | cons p rest ih =>
    obtain ⟨k', v'⟩ := p
    by_cases hk : k' = k
    · subst hk
      simp [setKey]
    · simp [setKey, hk, List.lookup, Ne.symm hk, ih, beq_false_of_ne (Ne.symm hk)]

theorem setKey_idem (T : Table) (k : String) (v : Route) :
    setKey (setKey T k v) k v = setKey T k v := by
  induction T with
  | nil => simp [setKey]
  | cons p rest ih =>
    obtain ⟨k', v'⟩ := p
    by_cases hk : k' = k
    · subst hk
      simp [setKey]
    · simp [setKey, hk, ih]

theorem probeLoop_all_fail {ports : List Nat} {outcome : Nat → Bool}
    (hfail : ∀ p ∈ ports, outcome p = false) (hostname : String) (fs : FS) :
    probeLoop hostname outcome ports fs = (ports, none) := by
  induction ports with
  | nil => rfl
  | cons p rest ih =>
    have hp := hfail p (List.mem_cons_self p rest)
    have hrest : ∀ q ∈ rest, outcome q = false := fun q hq =>
      hfail q (List.mem_cons_of_mem p hq)
    simp [probeLoop, hp, ih hrest]

theorem probeLoop_first_success (pre post : List Nat) (p : Nat)
    (outcome : Nat → Bool) (hpre : ∀ q ∈ pre, outcome q = false)
    (hp : outcome p = true) (hostname : String) (fs : FS) :
    probeLoop hostname outcome (pre ++ p :: post) fs =
      (pre ++ [p], some (p, (addIssuer hostname ("https://localhost:" ++ toString p)
        ("自動發現的發行者 (" ++ hostname ++ ")") fs).2)) := by
  induction pre with
  | nil => simp [probeLoop, hp]
  | cons q rest ih =>
    have hq := hpre q (List.mem_cons_self q rest)
    have hrest : ∀ r ∈ rest, outcome r = false := fun r hr =>
      hpre r (List.mem_cons_of_mem q hr)
    simp [probeLoop, hq, ih hrest]

theorem toList_append (a b : String) : (a ++ b).toList = a.toList ++ b.toList := by
  simp [String.toList]

theorem takeWhile_append_stop {r : List Char} {l : List Char}
    (hl : ∀ c ∈ l, c ≠ ':') :
    (l ++ ':' :: r).takeWhile (fun c => c != ':') = l := by
  induction l with
  | nil => simp [List.takeWhile]
  | cons c rest ih =>
    have hc : c ≠ ':' := hl c (List.mem_cons_self c rest)
    have hrest : ∀ d ∈ rest, d ≠ ':' := fun d hd => hl d (List.mem_cons_of_mem c hd)
    have hcb : (c != ':') = true := bne_iff_ne.mpr hc
    simp [List.takeWhile, hcb, ih hrest]

theorem extractHostname_no_colon {h : String} (hc : ':' ∉ h.toList) :
    extractHostname h = h := by
  unfold extractHostname
  have ht : h.toList.takeWhile (fun c => c != ':') = h.toList := by
    apply List.takeWhile_eq_self_iff.mpr
    intro c hcl
    simp only [bne_iff_ne, ne_eq]
    exact fun he => hc (he ▸ hcl)
  rw [ht]
  cases h
  rfl

theorem extractHostname_strip_port {h : String} (p : String) (hc : ':' ∉ h.toList) :
    extractHostname (h ++ ":" ++ p) = h := by
  unfold extractHostname
  have hcolon : (":" : String).toList = [':'] := by decide
  have hl : (h ++ ":" ++ p).toList = h.toList ++ ':' :: p.toList := by
    rw [toList_append, toList_append, hcolon]
    simp
  rw [hl, takeWhile_append_stop (fun c hcl he => hc (he ▸ hcl))]
  cases h
  rfl

/-! ### Claims -/

/-- C3: `loadConfig` returns the parsed table when the storage file exists and
parses; when the file is absent or malformed it returns the built-in default
table (which contains fido.moi.gov.tw, land.moi.gov.tw and zuvi.io) and, when
the disk is writable, persists that default; in every state it returns a table
(every fallible step is caught), so startup never fails on storage errors. -/
theorem loadConfig_spec (fs : FS) :
    (∀ t, fs.file = .serialized t → loadConfig fs = (t, fs)) ∧
    ((fs.file = .absent ∨ fs.file = .unparsable) →
      (loadConfig fs).1 = DEFAULT_ISSUERS ∧
      (fs.writeOk = true → (loadConfig fs).2 = ⟨.serialized DEFAULT_ISSUERS, true⟩)) ∧
    ((DEFAULT_ISSUERS.lookup ("fido.moi.gov.tw")).isSome = true ∧
     (DEFAULT_ISSUERS.lookup ("land.moi.gov.tw")).isSome = true ∧
     (DEFAULT_ISSUERS.lookup ("zuvi.io")).isSome = true) ∧
    ((loadConfig fs).1 = DEFAULT_ISSUERS ∨ fs.file = .serialized (loadConfig fs).1) := by
  refine ⟨fun t ht => loadConfig_serialized ht, fun hmiss => ?_, by decide, ?_⟩
  · rcases hmiss with ha | hu
    · rw [loadConfig_absent ha]
      refine ⟨rfl, fun hw => ?_⟩
      obtain ⟨file, wk⟩ := fs
      simp only [FS.writeOk] at hw
      subst hw
      simp
    · rw [loadConfig_unparsable hu]
      refine ⟨rfl, fun hw => ?_⟩
      obtain ⟨file, wk⟩ := fs
      simp only [FS.writeOk] at hw
      subst hw
      simp
  · cases hf : fs.file with
    | absent => exact Or.inl (loadConfig_absent hf ▸ rfl)
    | unparsable => exact Or.inl (loadConfig_unparsable hf ▸ rfl)
    | serialized t => exact Or.inr (by rw [loadConfig_serialized hf])

/-- Witness for C3: on an absent, writable storage state, `loadConfig` yields
the default table and persists it. -/
theorem loadConfig_spec_witness :
    loadConfig ⟨.absent, true⟩ = (DEFAULT_ISSUERS, ⟨.serialized DEFAULT_ISSUERS, true⟩) := by
  have h := (loadConfig_spec ⟨.absent, true⟩).2.1 (Or.inl rfl)
  have h1 := h.1
  have h2 := h.2 rfl
  exact Prod.ext h1 h2

/-- C4 counterexample: `saveConfig`'s file-system trace contains no rename at
all, so it does not follow a write-to-temp-then-rename discipline. -/
theorem saveConfig_no_temp_rename_cex :
    ¬ usesTempThenRename (saveConfigOps DEFAULT_ISSUERS) := by
  rintro ⟨tmp, c, _, hr, _⟩
  simp [saveConfigOps, configPath] at hr

/-- C4 (amended): `saveConfig` writes the storage file with a single direct
synchronous `writeFileSync` of the whole serialization to the storage path —
no temp file and no rename — so a crash mid-write can leave the file in a
half-written (malformed) state observable by a later reader. -/
theorem saveConfig_direct_write (t : Table) (pre : FileContent) :
    saveConfigOps t = [.writeFile configPath t] ∧
    ¬ usesTempThenRename (saveConfigOps t) ∧
    FileContent.unparsable ∈ directWriteCrashStates pre t ∧
    FileContent.serialized t ∈ directWriteCrashStates pre t := by
  refine ⟨rfl, ?_, by simp [directWriteCrashStates], by simp [directWriteCrashStates]⟩
  rintro ⟨tmp, c, _, hr, _⟩
  simp [saveConfigOps, configPath] at hr

/-- C8: `addIssuer` (upsert) is idempotent — applying it twice with identical
arguments yields exactly the same result (return flag and file-system state,
hence also the persisted table) as applying it once. -/
theorem addIssuer_idempotent (h t n : String) (fs : FS) :
    addIssuer h t n (addIssuer h t n fs).2 = addIssuer h t n fs := by
  cases hw : fs.writeOk with
  | false =>
    rw [addIssuer_writeOk_false hw]
    show addIssuer h t n fs = (false, fs)
    exact addIssuer_writeOk_false hw h t n
  | true =>
    rw [addIssuer_writeOk_true hw]
    show addIssuer h t n
        (⟨.serialized (setKey (loadConfig fs).1 h ⟨t, n⟩), true⟩ : FS) = _
    rw [addIssuer_writeOk_true (s := ⟨.serialized (setKey (loadConfig fs).1 h ⟨t, n⟩), true⟩) rfl,
      loadConfig_serialized (s := ⟨.serialized (setKey (loadConfig fs).1 h ⟨t, n⟩), true⟩) rfl]
    simp [setKey_idem]

/-- C9: save/load round-trip — `save(load())` leaves a storage file produced
by `save` unchanged, and on a writable disk any table written by `save` is
recovered intact by `load`. -/
theorem save_load_roundtrip (t : Table) (fs : FS) :
    (fs.file = .serialized t →
      (saveConfig (loadConfig fs).1 (loadConfig fs).2).2 = fs) ∧
    (fs.writeOk = true →
      (saveConfig t fs).1 = true ∧ (loadConfig (saveConfig t fs).2).1 = t) := by
  constructor
  · intro hser
    rw [loadConfig_serialized hser]
    obtain ⟨file, wk⟩ := fs
    simp only [FS.file] at hser
    subst hser
    cases wk <;> simp [saveConfig, writeConfigFile]
  · intro hw
    rw [saveConfig_writeOk_true hw]
    exact ⟨rfl, by rw [loadConfig_serialized (s := ⟨.serialized t, true⟩) rfl]⟩

/-- Witness for C9: round-trip on a concrete file produced by `save`, and
lossless recovery of the default table. -/
theorem save_load_roundtrip_witness :
    (saveConfig (loadConfig ⟨.serialized DEFAULT_ISSUERS, true⟩).1
        (loadConfig ⟨.serialized DEFAULT_ISSUERS, true⟩).2).2 =
      ⟨.serialized DEFAULT_ISSUERS, true⟩ ∧
    (loadConfig (saveConfig DEFAULT_ISSUERS ⟨.absent, true⟩).2).1 = DEFAULT_ISSUERS := by
  exact ⟨(save_load_roundtrip DEFAULT_ISSUERS ⟨.serialized DEFAULT_ISSUERS, true⟩).1 rfl,
    ((save_load_roundtrip DEFAULT_ISSUERS ⟨.absent, true⟩).2 rfl).2⟩

/-- C10: a request with no Host header makes `handleRequest` throw a
`TypeError` (line 91 dereferences `req.headers.host` unconditionally) before
any response is produced. -/
theorem missing_host_header_throws (req : Request) (outcome : Nat → Bool)
    (fs : FS) (h : req.host = none) :
    handleRequest req outcome fs = .error .typeError := by
  rw [handleRequest, h]

/-- Witness for C10: a concrete hostless request throws. -/
theorem missing_host_header_throws_witness :
    handleRequest ⟨none, "/", "GET", .malformed⟩ (fun _ => false)
        ⟨.serialized DEFAULT_ISSUERS, true⟩ = .error .typeError :=
  missing_host_header_throws _ _ _ rfl

/-- C7: on POST /proxy-admin/add — a malformed body or an empty/missing
required field yields 400 with the file system untouched; non-empty hostname
and target with a writable disk applies the upsert, with the display name
defaulting to the hostname, and acknowledges success; a failing write yields
500. -/
theorem admin_add_spec (req : Request) (fs : FS)
    (hurl : req.url = "/proxy-admin/add") (hm : req.method = "POST") :
    (req.body = .malformed →
      handleAdminRequest req fs = (.malformedBody, fs) ∧
      adminStatus .malformedBody = 400) ∧
    (∀ h t n, req.body = .fields h t n → (jsFalsy h || jsFalsy t) = true →
      handleAdminRequest req fs = (.missingParams, fs) ∧
      adminStatus .missingParams = 400) ∧
    (∀ h t n, req.body = .fields (some h) (some t) n → h ≠ "" → t ≠ "" →
      fs.writeOk = true →
      handleAdminRequest req fs =
        (.addSuccess, ⟨.serialized (setKey (loadConfig fs).1 h
          ⟨t, if jsFalsy n then h else n.getD ("")⟩), true⟩) ∧
      adminStatus .addSuccess = 200) ∧
    (∀ h t n, req.body = .fields (some h) (some t) n → h ≠ "" → t ≠ "" →
      fs.writeOk = false →
      handleAdminRequest req fs = (.persistFailed, fs) ∧
      adminStatus .persistFailed = 500) := by
  have hbase : ∀ res : AdminResponse × FS,
      (match req.body with
        | .malformed => ((.malformedBody : AdminResponse), fs)
        | .fields hostname target name =>
          if jsFalsy hostname || jsFalsy target then
            ((.missingParams : AdminResponse), fs)
          else
            let h := hostname.getD ("")
            let n := if jsFalsy name then h else name.getD ("")
            let r := addIssuer h (target.getD ("")) n fs
            if r.1 then ((.addSuccess : AdminResponse), r.2)
            else ((.persistFailed : AdminResponse), r.2)) = res →
      handleAdminRequest req fs = res := by
    intro res hres
    rw [handleAdminRequest, hurl, hm, if_neg (by decide), if_pos (by decide), hres]
  refine ⟨fun hb => ⟨hbase _ ?_, rfl⟩, fun h t n hb hf => ⟨hbase _ ?_, rfl⟩,
    fun h t n hb hne1 hne2 hw => ⟨hbase _ ?_, rfl⟩,
    fun h t n hb hne1 hne2 hw => ⟨hbase _ ?_, rfl⟩⟩
  · rw [hb]
  · rw [hb]
    simp only [hf, if_true]
  · have hfalse : (jsFalsy (some h) || jsFalsy (some t)) = false := by
      simp [jsFalsy, hne1, hne2]
    rw [hb]
    simp only [hfalse, Bool.false_eq_true, if_false, Option.getD_some]
    rw [addIssuer_writeOk_true hw]
    rfl
  · have hfalse : (jsFalsy (some h) || jsFalsy (some t)) = false := by
      simp [jsFalsy, hne1, hne2]
    rw [hb]
    simp only [hfalse, Bool.false_eq_true, if_false, Option.getD_some]
    rw [addIssuer_writeOk_false hw]
    rfl

/-- Witness for C7: adding a concrete issuer on a writable default store
succeeds and persists the entry with the name defaulted to the hostname. -/
theorem admin_add_spec_witness :
    handleAdminRequest
        ⟨some "localhost", "/proxy-admin/add", "POST",
          .fields (some "a.example") (some "https://localhost:6000") none⟩
        ⟨.serialized DEFAULT_ISSUERS, true⟩ =
      (.addSuccess, ⟨.serialized (setKey DEFAULT_ISSUERS ("a.example")
        ⟨"https://localhost:6000", "a.example"⟩), true⟩) := by
  have h := ((admin_add_spec
      ⟨some "localhost", "/proxy-admin/add", "POST",
        .fields (some "a.example") (some "https://localhost:6000") none⟩
      ⟨.serialized DEFAULT_ISSUERS, true⟩ rfl rfl).2.2.1
    ("a.example") ("https://localhost:6000") none rfl (by decide) (by decide) rfl).1
  rw [h]
  rfl

/-- C6: when every candidate port fails, the dispatcher answers the discovery
request with a 404 JSON body carrying a discovery-failure error plus message
and admin_url, and the routing table is unchanged by the attempt. -/
theorem discovery_exhausted_404 (req : Request) (host : String)
    (outcome : Nat → Bool) (fs : FS)
    (hh : req.host = some host)
    (hurl : req.url = "/.well-known/openid-credential-issuer")
    (hlook : (loadConfig fs).1.lookup (extractHostname host) = none)
    (hfail : ∀ p ∈ DISCOVERY_PORTS, outcome p = false) :
    handleRequest req outcome fs =
      .ok (.respond404 ("未找到發行者")
        ("無法自動發現 " ++ extractHostname host ++
          " 的服務。請確保服務運行並在代理管理頁面添加此發行者。")
        ("https://localhost:8080/proxy-admin"), (loadConfig fs).2) ∧
    (loadConfig (loadConfig fs).2).1 = (loadConfig fs).1 := by
  constructor
  · have hgate : ¬(extractHostname host = "localhost" ∧
        urlStartsWith req.url ("/proxy-admin") = true) := by
      rintro ⟨_, hsw⟩
      rw [hurl] at hsw
      exact absurd hsw (by decide)
    simp only [handleRequest, hh]
    rw [if_neg hgate, hlook]
    simp only [hurl, if_pos rfl, discoverIssuer, discoverIssuerWith,
      probeLoop_all_fail hfail]
    rfl
  · rw [loadConfig_stable]

/-- Witness for C6: probing for an unknown hostname with every port failing
yields the 404 discovery-failure response and leaves the default table
unchanged. -/
theorem discovery_exhausted_404_witness :
    handleRequest ⟨some "unknown.example", "/.well-known/openid-credential-issuer",
        "GET", .malformed⟩ (fun _ => false) ⟨.serialized DEFAULT_ISSUERS, true⟩ =
      .ok (.respond404 ("未找到發行者")
        ("無法自動發現 " ++ extractHostname ("unknown.example") ++
          " 的服務。請確保服務運行並在代理管理頁面添加此發行者。")
        ("https://localhost:8080/proxy-admin"), ⟨.serialized DEFAULT_ISSUERS, true⟩) := by
  have h := (discovery_exhausted_404
    ⟨some "unknown.example", "/.well-known/openid-credential-issuer", "GET", .malformed⟩
    ("unknown.example") (fun _ => false) ⟨.serialized DEFAULT_ISSUERS, true⟩
    rfl rfl rfl (fun p _ => rfl)).1
  rw [h]
  rfl

/-- C2: with a fixed ordered candidate list and fixed per-port probe
outcomes, discovery probes strictly sequentially from the head of the list,
stops at the first port whose probe returns 200 (never retrying a failed
port within the attempt, and probing nothing after the first success),
registers exactly https://localhost:port for the hostname, and forwards the
original request there. -/
theorem discovery_selects_first_success (ports pre post : List Nat) (p : Nat)
    (hostname : String) (req : Request) (outcome : Nat → Bool) (fs : FS)
    (hsplit : ports = pre ++ p :: post)
    (hpre : ∀ q ∈ pre, outcome q = false)
    (hp : outcome p = true)
    (hnd : ports.Nodup)
    (hw : fs.writeOk = true) :
    discoverIssuerWith ports hostname req outcome fs =
      (.forwarded ("https://localhost:" ++ toString p) req,
        ⟨.serialized (setKey (loadConfig fs).1 hostname
          ⟨"https://localhost:" ++ toString p,
            "自動發現的發行者 (" ++ hostname ++ ")"⟩), true⟩) ∧
    discoveryTrace ports hostname outcome fs = pre ++ [p] ∧
    (discoveryTrace ports hostname outcome fs).Nodup ∧
    (loadConfig (discoverIssuerWith ports hostname req outcome fs).2).1.lookup hostname =
      some ⟨"https://localhost:" ++ toString p,
        "自動發現的發行者 (" ++ hostname ++ ")"⟩ := by
  subst hsplit
  have hloop := probeLoop_first_success pre post p outcome hpre hp hostname fs
  have hadd := addIssuer_writeOk_true hw hostname ("https://localhost:" ++ toString p)
    ("自動發現的發行者 (" ++ hostname ++ ")")
  have hmain : discoverIssuerWith (pre ++ p :: post) hostname req outcome fs =
      (.forwarded ("https://localhost:" ++ toString p) req,
        ⟨.serialized (setKey (loadConfig fs).1 hostname
          ⟨"https://localhost:" ++ toString p,
            "自動發現的發行者 (" ++ hostname ++ ")"⟩), true⟩) := by
    rw [discoverIssuerWith, hloop, hadd]
  have htrace : discoveryTrace (pre ++ p :: post) hostname outcome fs = pre ++ [p] := by
    rw [discoveryTrace, hloop]
  refine ⟨hmain, htrace, ?_, ?_⟩
  · rw [htrace]
    have hsub : (pre ++ [p]).Sublist (pre ++ p :: post) := by
      have he : pre ++ p :: post = (pre ++ [p]) ++ post := by simp
      rw [he]
      exact List.sublist_append_left _ _
    exact List.Nodup.sublist hsub hnd
  · rw [hmain]
    show (loadConfig ⟨.serialized (setKey (loadConfig fs).1 hostname
      ⟨"https://localhost:" ++ toString p,
        "自動發現的發行者 (" ++ hostname ++ ")"⟩), true⟩).1.lookup hostname = _
    rw [loadConfig_mk_serialized]
    exact lookup_setKey _ _ _

/-- Witness for C2: with candidates 5000 and 5001 where only 5001 probes 200,
discovery probes 5000 then 5001, registers https://localhost:5001 for the
unknown hostname and forwards the original request there. -/
theorem discovery_selects_first_success_witness :
    discoverIssuerWith [5000, 5001] ("unknown.example")
        ⟨some "unknown.example", "/.well-known/openid-credential-issuer", "GET", .malformed⟩
        (fun q => q == 5001) ⟨.serialized DEFAULT_ISSUERS, true⟩ =
      (.forwarded ("https://localhost:5001")
        ⟨some "unknown.example", "/.well-known/openid-credential-issuer", "GET", .malformed⟩,
        ⟨.serialized (setKey DEFAULT_ISSUERS ("unknown.example")
          ⟨"https://localhost:5001", "自動發現的發行者 (unknown.example)"⟩), true⟩) ∧
    discoveryTrace [5000, 5001] ("unknown.example") (fun q => q == 5001)
        ⟨.serialized DEFAULT_ISSUERS, true⟩ = [5000, 5001] := by
  have h := discovery_selects_first_success [5000, 5001] [5000] [] 5001 ("unknown.example")
    ⟨some "unknown.example", "/.well-known/openid-credential-issuer", "GET", .malformed⟩
    (fun q => q == 5001) ⟨.serialized DEFAULT_ISSUERS, true⟩
    rfl (by decide) (by decide) (by decide) rfl
  exact ⟨h.1.trans (by rfl), h.2.1.trans (by rfl)⟩

/-- C1 counterexample: with a routing table containing the hostname
localhost, a request with Host localhost whose path is under /proxy-admin is
handled by the Admin API, not forwarded to the table's target — the admin
gate fires before the routing-table lookup, so the claim's unconditional
forwarding is false. -/
theorem dispatch_admin_gate_overrides_route_cex :
    (setKey DEFAULT_ISSUERS ("localhost") ⟨"https://localhost:9999", "local"⟩).lookup
        ("localhost") = some ⟨"https://localhost:9999", "local"⟩ ∧
    handleRequest ⟨some "localhost", "/proxy-admin/list", "GET", .malformed⟩
        (fun _ => false)
        ⟨.serialized (setKey DEFAULT_ISSUERS ("localhost")
          ⟨"https://localhost:9999", "local"⟩), true⟩ =
      .ok (.admin (.list (setKey DEFAULT_ISSUERS ("localhost")
          ⟨"https://localhost:9999", "local"⟩)),
        ⟨.serialized (setKey DEFAULT_ISSUERS ("localhost")
          ⟨"https://localhost:9999", "local"⟩), true⟩) :=
  ⟨rfl, rfl⟩

/-- C1 (amended): for every hostname present in the routing table, a request
whose Host header names it — optionally with a port suffix — is forwarded to
exactly the table's target with the original request (method and body
included), unless the hostname is localhost and the path is under
/proxy-admin, in which case the admin gate takes the request instead. -/
theorem dispatch_route_hit_forwards (req : Request) (host h p : String) (r : Route)
    (outcome : Nat → Bool) (fs : FS)
    (hh : req.host = some host)
    (hc : ':' ∉ h.toList)
    (hp : host = h ∨ host = h ++ ":" ++ p)
    (hlook : (loadConfig fs).1.lookup h = some r)
    (hgate : ¬(h = "localhost" ∧ urlStartsWith req.url ("/proxy-admin") = true)) :
    handleRequest req outcome fs = .ok (.forwarded r.target req, (loadConfig fs).2) := by
  have hext : extractHostname host = h := by
    rcases hp with rfl | rfl
    · exact extractHostname_no_colon hc
    · exact extractHostname_strip_port p hc
  simp only [handleRequest, hh]
  rw [hext, if_neg hgate, hlook]

/-- Witness for C1: a request with Host land.moi.gov.tw:8443 against the
default table is forwarded to https://localhost:5001 with the request object
intact. -/
theorem dispatch_route_hit_forwards_witness :
    handleRequest ⟨some "land.moi.gov.tw:8443", "/credential", "GET", .malformed⟩
        (fun _ => false) ⟨.serialized DEFAULT_ISSUERS, true⟩ =
      .ok (.forwarded ("https://localhost:5001")
        ⟨some "land.moi.gov.tw:8443", "/credential", "GET", .malformed⟩,
        ⟨.serialized DEFAULT_ISSUERS, true⟩) := by
  have h := dispatch_route_hit_forwards
    ⟨some "land.moi.gov.tw:8443", "/credential", "GET", .malformed⟩
    ("land.moi.gov.tw:8443") ("land.moi.gov.tw") ("8443")
    ⟨"https://localhost:5001", "內政部房產憑證"⟩ (fun _ => false)
    ⟨.serialized DEFAULT_ISSUERS, true⟩ rfl (by decide) (Or.inr (by decide)) rfl (by decide)
  exact h.trans (by rfl)

/-- C5 counterexample: the dispatcher does not lowercase.  With Host
ZUVI.IO:443 the lookup key is ZUVI.IO (case preserved), so although zuvi.io
is in the table the request is answered 404 with the upper-case hostname in
the message, instead of being forwarded. -/
theorem dispatch_no_lowercase_cex :
    extractHostname ("ZUVI.IO:443") = "ZUVI.IO" ∧
    ((loadConfig ⟨.serialized DEFAULT_ISSUERS, true⟩).1.lookup ("zuvi.io")).isSome = true ∧
    handleRequest ⟨some "ZUVI.IO:443", "/some/path", "GET", .malformed⟩ (fun _ => false)
        ⟨.serialized DEFAULT_ISSUERS, true⟩ =
      .ok (.respond404 ("未配置的發行者")
        ("找不到 ZUVI.IO 的配置，請在代理管理頁面添加此發行者。")
        ("https://localhost:8080/proxy-admin"), ⟨.serialized DEFAULT_ISSUERS, true⟩) :=
  ⟨rfl, rfl, rfl⟩

/-- C5 (amended): the hostname normalization applied before the admin-gate
check and the routing-table lookup strips a port suffix and nothing else —
in particular it does not lowercase, so lookup keys preserve the case of the
Host header. -/
theorem extractHostname_strips_port_only (h p : String) (hc : ':' ∉ h.toList) :
    extractHostname (h ++ ":" ++ p) = h ∧ extractHostname h = h :=
  ⟨extractHostname_strip_port p hc, extractHostname_no_colon hc⟩

/-- Witness for C5: a mixed-case hostname passes through normalization with
its case intact, with and without a port suffix. -/
theorem extractHostname_strips_port_only_witness :
    extractHostname ("Land.MOI.gov.TW" ++ ":" ++ "8443") = "Land.MOI.gov.TW" ∧
    extractHostname ("Land.MOI.gov.TW") = "Land.MOI.gov.TW" :=
  extractHostname_strips_port_only ("Land.MOI.gov.TW") ("8443") (by decide)

end CredentialProxy
